import Mathlib

/-!
Shallow embedding of the release-lifecycle orchestration logic of
zed-stylelint-actions: the update-lsp action (version check, commit,
prerelease, pull request), the rebase-keeper action, the build-lsp action
and the publish-release actions.  External effects (the hosting-platform
API, git subprocesses, the local filesystem) are modelled explicitly: API
state as a list of release records, git and commit activity as effect
traces, subprocess and upload outcomes as boolean inputs.
-/

/-- An open pull request as the orchestrator sees it: number, head branch
name and head commit sha. -/
structure PullRequestRecord where
  number : Nat
  branch : String
  headSha : String
deriving Repr, DecidableEq

/-- From publish-release (workflow-dispatch variant): `isUpdateLspBranch`
tests whether the branch name starts with the automated update pattern
`update-lsp-`; an undefined branch name tests false. -/
def isUpdateLspBranch (branchName : Option String) : Bool :=
  match branchName with
  | none => false
  | some b => "update-lsp-".data.isPrefixOf b.data

/-- Modelled from the spec: `findOpenLspUpdatePr` lives in
`shared/src/github.js`, which is not among the provided source files.  The
spec describes it as locating the open in-flight pull request by the
deterministic branch-name pattern `update-lsp-*`. -/
def findOpenLspUpdatePr (openPrs : List PullRequestRecord) : Option PullRequestRecord :=
  openPrs.find? (fun pr => isUpdateLspBranch (some pr.branch))

/-- The latest upstream release as returned by `getLatestLspRelease`:
its version and its release body (changelog text). -/
structure UpstreamRelease where
  version : String
  body : String
deriving Repr, DecidableEq

/-- The non-skip result of `checkForUpdate` in the update-lsp action. -/
structure CheckResult where
  needed : Bool
  version : String
  changelog : String
deriving Repr, DecidableEq

/-- `checkForUpdate` from the update-lsp action.  The results of the
external reads are inputs: `openPrs` is the open pull-request list consulted
by `findOpenLspUpdatePr`, `currentVersion` the value read from
extension.toml, `latest` the latest upstream release.  Returns `none`
(the skip sentinel) when an open update PR exists; otherwise the manual
version short-circuits the upstream lookup; otherwise the upstream version
is compared to the current one by string equality. -/
def checkForUpdate (openPrs : List PullRequestRecord) (manualVersion : Option String)
    (currentVersion : String) (latest : UpstreamRelease) : Option CheckResult :=
  match findOpenLspUpdatePr openPrs with
  | some _ => none
  | none =>
    match manualVersion with
    | some v => some { needed := true, version := v, changelog := "Manual update to v" ++ v }
    | none =>
      if latest.version = currentVersion then
        some { needed := false, version := currentVersion, changelog := "" }
      else
        some { needed := true, version := latest.version, changelog := latest.body }

/-- The `updated` output of the update-lsp action's `run`: `false` when the
check returned the skip sentinel or reported no update needed, `true` when
the update path runs to completion. -/
def updatedOutput (check : Option CheckResult) : Bool :=
  match check with
  | none => false
  | some c => c.needed

/-- A release entry held by the hosting platform. -/
structure ReleaseRecord where
  id : Nat
  tag_name : String
  name : String
  body : String
  draft : Bool
  prerelease : Bool
  html_url : String
deriving Repr, DecidableEq

/-- The hosting platform's release list together with the next
server-assigned release id. -/
structure GithubState where
  releases : List ReleaseRecord
  nextId : Nat
deriving Repr, DecidableEq

/-- Model of the server-assigned URL of a release, a function of its id. -/
def releaseUrl (id : Nat) : String :=
  "https://example.invalid/releases/" ++ toString id

/-- Modelled from the spec: the hosting-platform API's create-release call
(`octokit.rest.repos.createRelease`) appends a brand-new release entry with
a fresh server-assigned id and URL and returns it. -/
def createRelease (st : GithubState) (tag name body : String)
    (draft prerelease : Bool) : ReleaseRecord × GithubState :=
  let rel : ReleaseRecord :=
    { id := st.nextId, tag_name := tag, name := name, body := body,
      draft := draft, prerelease := prerelease, html_url := releaseUrl st.nextId }
  (rel, { releases := st.releases ++ [rel], nextId := st.nextId + 1 })

/-- Modelled from the spec: the hosting-platform API's update-release call
(`octokit.rest.repos.updateRelease`) rewrites in place the named mutable
fields of the release with the given id; id, tag and URL are unchanged. -/
def updateRelease (st : GithubState) (releaseId : Nat) (name body : String)
    (draft prerelease : Bool) : GithubState :=
  { st with
    releases := st.releases.map (fun q =>
      if q.id = releaseId then
        { q with name := name, body := body, draft := draft, prerelease := prerelease }
      else q) }

/-- The release body text the update-lsp action puts on a prerelease. -/
def prereleaseBody (version : String) : String :=
  "Prerelease for LSP v" ++ version ++
    "\n\nThis is a prerelease created for testing. It will be promoted to a full release when the update PR is merged."

/-- Deterministic tarball name used by both publishers. -/
def tarballName (version : String) : String :=
  "stylelint-language-server-v" ++ version ++ ".tar.gz"

/-- Deterministic checksum-file name used by both publishers. -/
def sha256Name (version : String) : String :=
  "stylelint-language-server-v" ++ version ++ ".sha256"

/-- Outcome of one `createPrerelease` run: the value it returns or the
error it throws, the resulting platform state, and the local files left in
the workspace. -/
structure PrereleaseRun where
  result : Except String (Nat × String)
  state : GithubState
  localFiles : List String
deriving Repr

/-- `createPrerelease` from the update-lsp action: writes the tarball and
the checksum file locally, creates a new prerelease entry (tag = version,
draft = false, prerelease = true), uploads the two assets, and only then
removes the two local files.  Upload outcomes are inputs; a failed upload
throws, so control leaves the function before the cleanup line runs. -/
def createPrerelease (st : GithubState) (fs : List String) (version : String)
    (upload1Ok upload2Ok : Bool) : PrereleaseRun :=
  let tar := tarballName version
  let sha := sha256Name version
  let fs1 := fs ++ [tar, sha]
  let (rel, st1) := createRelease st version ("v" ++ version) (prereleaseBody version) false true
  if upload1Ok = false then
    { result := Except.error "uploadReleaseAsset failed", state := st1, localFiles := fs1 }
  else if upload2Ok = false then
    { result := Except.error "uploadReleaseAsset failed", state := st1, localFiles := fs1 }
  else
    { result := Except.ok (rel.id, rel.html_url), state := st1,
      localFiles := fs1.filter (fun f => !(f == tar || f == sha)) }

/-- The author name and message of a commit as read back from the platform;
the author name is optional (`commit.commit.author?.name`). -/
structure CommitInfo where
  authorName : Option String
  message : String
deriving Repr, DecidableEq

/-- Result of `verifyLspUpdateCommit`. -/
structure VerifyResult where
  isValid : Bool
  message : String
deriving Repr, DecidableEq

/-- The automation identity the Change Committer commits under. -/
def automationAuthor : String := "github-actions[bot]"

/-- The fixed commit-message template the verifier requires as a message
start. -/
def lspCommitPrefixStr : String := "chore: update language server to"

/-- How a JavaScript template literal renders the optional author name:
an undefined author interpolates as the text "undefined". -/
def authorDisplay : Option String → String
  | some a => a
  | none => "undefined"

/-- `verifyLspUpdateCommit` from publish-release: the author must equal the
automation identity and the message must start with the fixed template.
The author mismatch reason interpolates the actual author; the message
mismatch reason is a fixed string. -/
def verifyLspUpdateCommit (c : CommitInfo) : VerifyResult :=
  if c.authorName ≠ some automationAuthor then
    { isValid := false,
      message := "Skipping: Commit author is '" ++ authorDisplay c.authorName ++
        "', expected 'github-actions[bot]'" }
  else if lspCommitPrefixStr.data.isPrefixOf c.message.data then
    { isValid := true, message := "Commit verified as LSP update" }
  else
    { isValid := false, message := "Skipping: Commit message doesn't match LSP update pattern" }

/-- `findPrerelease` from the publish-release actions: the first listed
release that is a prerelease or a draft and whose tag equals the version. -/
def findPrerelease (releases : List ReleaseRecord) (version : String) : Option ReleaseRecord :=
  releases.find? (fun r => (r.prerelease || r.draft) && r.tag_name == version)

/-- Outcome of a publish-release run. -/
inductive RunOutcome
  | skipped (reason : String)
  | promoted (id : Nat) (url : String)
deriving Repr, DecidableEq

/-- The `run` of src/publish-release/index.ts (the variant with the Commit
Verifier): verify the triggering commit; on failure skip with the
verifier's reason; then look for a prerelease or draft tagged with the
declared version; if none, skip with a fixed reason (no fallback); if
found, flip it to a stable release in place. -/
def publishReleaseRun (commit : CommitInfo) (st : GithubState)
    (version body : String) : RunOutcome × GithubState :=
  let verification := verifyLspUpdateCommit commit
  if verification.isValid then
    match findPrerelease st.releases version with
    | none => (RunOutcome.skipped "No prerelease found for this version", st)
    | some pre =>
      (RunOutcome.promoted pre.id pre.html_url,
        updateRelease st pre.id ("v" ++ version) body false false)
  else
    (RunOutcome.skipped verification.message, st)

/-- Outcome of one `createReleaseFromScratch` run. -/
structure ScratchRun where
  result : Except String (Nat × String)
  state : GithubState
  localFiles : List String
deriving Repr

/-- `createReleaseFromScratch` from the promote variant without the Commit
Verifier: build the LSP, write the tarball and checksum locally, create a
brand-new stable entry (draft = false, prerelease = false), upload the two
assets, then remove the local files; a failed upload throws before the
cleanup lines run. -/
def createReleaseFromScratch (st : GithubState) (fs : List String)
    (version body : String) (upload1Ok upload2Ok : Bool) : ScratchRun :=
  let tar := tarballName version
  let sha := sha256Name version
  let fs1 := fs ++ [tar, sha]
  let (rel, st1) := createRelease st version ("v" ++ version) body false false
  if upload1Ok = false then
    { result := Except.error "uploadReleaseAsset failed", state := st1, localFiles := fs1 }
  else if upload2Ok = false then
    { result := Except.error "uploadReleaseAsset failed", state := st1, localFiles := fs1 }
  else
    { result := Except.ok (rel.id, rel.html_url), state := st1,
      localFiles := fs1.filter (fun f => !(f == tar || f == sha)) }

/-- Outputs of the promote-or-scratch `run` (the publish variant without
the Commit Verifier). -/
structure PromoteOutputs where
  promoted : Bool
  failed : Bool
  state : GithubState
  localFiles : List String
  builtLsp : Bool
deriving Repr, DecidableEq

/-- Whether an `Except` run ended in the catch clause. -/
def exceptFailed : Except String (Nat × String) → Bool
  | Except.ok _ => false
  | Except.error _ => true

/-- The `run` of the publish variant without the Commit Verifier: if a
prerelease or draft tagged with the declared version exists, promote it in
place (`promoted = true`, no build); otherwise invoke the Artifact Builder
and create a brand-new stable release from scratch (`promoted = false`).
In the model the tarball name uses the same version as the release tag,
matching the scratch path's use of the LSP version for assets. -/
def promoteOrScratchRun (st : GithubState) (fs : List String)
    (version body : String) (upload1Ok upload2Ok : Bool) : PromoteOutputs :=
  match findPrerelease st.releases version with
  | some pre =>
    { promoted := true, failed := false,
      state := updateRelease st pre.id ("v" ++ version) body false false,
      localFiles := fs, builtLsp := false }
  | none =>
    let s := createReleaseFromScratch st fs version body upload1Ok upload2Ok
    { promoted := false, failed := exceptFailed s.result, state := s.state,
      localFiles := s.localFiles, builtLsp := true }

/-- Git operations the rebase-keeper run can issue, in order. -/
inductive GitOp
  | config
  | fetch
  | revParse
  | mergeBase
  | rebase
  | rebaseAbort
  | push
deriving Repr, DecidableEq

/-- The outputs set by the rebase-keeper run. -/
structure RebaseOutputs where
  found : Bool
  rebased : Bool
  error : Option String
  failed : Bool
deriving Repr, DecidableEq

/-- The warning emitted when the replay fails. -/
def conflictMsg : String := "Rebase failed due to conflicts — manual intervention needed"

/-- The warning emitted when the conditional push is rejected. -/
def pushFailMsg : String := "Failed to push rebased branch - branch may have been updated"

/-- The rebase-keeper `run`: configure git, fetch main, look up the open
update PR; if none, stop.  Otherwise read the main head and the merge base
of the PR head and main; if they are equal, stop with `rebased = false`.
Otherwise rebase; on a nonzero exit abort the rebase, warn and stop with
`rebased = false`.  On success push with force-with-lease; a rejected push
warns and stops with `rebased = false`.  `mainHead` and `mergeBaseResult`
are the captured outputs of the two read commands; `rebaseOk` and `pushOk`
the subprocess outcomes.  The second component is the trace of git
commands issued. -/
def rebaseKeeperRun (openPrs : List PullRequestRecord)
    (mainHead mergeBaseResult : String) (rebaseOk pushOk : Bool) :
    RebaseOutputs × List GitOp :=
  let pre : List GitOp := [GitOp.config, GitOp.config, GitOp.fetch]
  match findOpenLspUpdatePr openPrs with
  | none => ({ found := false, rebased := false, error := none, failed := false }, pre)
  | some _ =>
    let pre2 := pre ++ [GitOp.revParse, GitOp.mergeBase]
    if mergeBaseResult = mainHead then
      ({ found := true, rebased := false, error := none, failed := false }, pre2)
    else if rebaseOk then
      if pushOk then
        ({ found := true, rebased := true, error := some "", failed := false },
          pre2 ++ [GitOp.rebase, GitOp.push])
      else
        ({ found := true, rebased := false, error := some pushFailMsg, failed := false },
          pre2 ++ [GitOp.rebase, GitOp.push])
    else
      ({ found := true, rebased := false, error := some conflictMsg, failed := false },
        pre2 ++ [GitOp.rebase, GitOp.rebaseAbort])

/-- Commit-path operations of the Change Committer, in order. -/
inductive CommitOp
  | config
  | add
  | diffCheck
  | commit (title : String)
deriving Repr, DecidableEq

/-- The title line of the machine-generated update commit. -/
def commitTitle (version : String) : String :=
  "chore: update language server to v" ++ version

/-- Outputs of the build-lsp run. -/
structure BuildLspOutputs where
  committed : Bool
  lspPath : String
  failed : Bool
deriving Repr, DecidableEq

/-- The build-lsp `run` after a successful build: configure git, stage the
LSP path, capture `git status --porcelain` on it; an empty capture reports
`committed = false` without error, a non-empty one creates one commit whose
title line is the fixed template. -/
def buildLspRun (version lspPath statusOutput : String) :
    BuildLspOutputs × List CommitOp :=
  let pre : List CommitOp := [CommitOp.config, CommitOp.config, CommitOp.add, CommitOp.diffCheck]
  if statusOutput = "" then
    ({ committed := false, lspPath := lspPath, failed := false }, pre)
  else
    ({ committed := true, lspPath := lspPath, failed := false },
      pre ++ [CommitOp.commit (commitTitle version)])

/-- `commitChanges` from the update-lsp action: stage the version files and
the LSP directory, run `git diff --cached --quiet` (exit code 0 means the
staged diff is empty); on 0 return false with no commit, otherwise create
one commit with the fixed template as its message. -/
def commitChanges (version : String) (diffExitCode : Nat) : Bool × List CommitOp :=
  let pre : List CommitOp := [CommitOp.config, CommitOp.config, CommitOp.add, CommitOp.diffCheck]
  if diffExitCode = 0 then
    (false, pre)
  else
    (true, pre ++ [CommitOp.commit (commitTitle version)])

/-- How many commits a trace creates. -/
def commitCount (ops : List CommitOp) : Nat :=
  (ops.filter (fun o => match o with | CommitOp.commit _ => true | _ => false)).length

/-- Boolean substring test on strings, via the infix relation on their
character lists. -/
def containsSub (s sub : String) : Bool :=
  decide (sub.data <:+: s.data)

/-- If a string sits between two others, the substring test finds it. -/
theorem containsSub_append (x a y : String) : containsSub (x ++ a ++ y) a = true := by
  have h : (x ++ a ++ y).data = x.data ++ a.data ++ y.data := by
    cases x
    cases a
    cases y
    rfl
  have hinf : a.data <:+: (x ++ a ++ y).data := by
    rw [h]
    exact List.infix_append _ _ _
  simp only [containsSub, decide_eq_true_eq]
  exact hinf

/-- C1: whenever some open pull request's branch matches the
`update-lsp-` pattern, `checkForUpdate` returns the skip sentinel `none`
and the run's `updated` output is `false`, regardless of the manual
override, the current declared version and the upstream release. -/
theorem checkForUpdate_single_flight
    (openPrs : List PullRequestRecord) (manual : Option String)
    (current : String) (latest : UpstreamRelease) (pr : PullRequestRecord)
    (hmem : pr ∈ openPrs) (hbr : isUpdateLspBranch (some pr.branch) = true) :
    checkForUpdate openPrs manual current latest = none ∧
    updatedOutput (checkForUpdate openPrs manual current latest) = false := by
  have hsome : (findOpenLspUpdatePr openPrs).isSome := by
    unfold findOpenLspUpdatePr
    exact List.find?_isSome.mpr ⟨pr, hmem, hbr⟩
  obtain ⟨q, hq⟩ := Option.isSome_iff_exists.mp hsome
  refine ⟨?_, ?_⟩ <;> simp [checkForUpdate, updatedOutput, hq]

/-- Witness for C1: a concrete open PR on branch update-lsp-1.3.0 forces
the skip even though a manual version is supplied and upstream is newer. -/
theorem checkForUpdate_single_flight_witness :
    checkForUpdate [⟨7, "update-lsp-1.3.0", "abc123"⟩] (some "1.4.0") "1.2.0" ⟨"1.3.0", "notes"⟩ = none ∧
    updatedOutput (checkForUpdate [⟨7, "update-lsp-1.3.0", "abc123"⟩] (some "1.4.0") "1.2.0" ⟨"1.3.0", "notes"⟩) = false :=
  checkForUpdate_single_flight [⟨7, "update-lsp-1.3.0", "abc123"⟩] (some "1.4.0") "1.2.0"
    ⟨"1.3.0", "notes"⟩ ⟨7, "update-lsp-1.3.0", "abc123"⟩ (by decide) (by decide)

/-- C8: with no open update PR and no manual override, the check reports
`needed = false` exactly when the upstream version string equals the
current declared version; otherwise it reports `needed = true` carrying the
upstream version and the upstream release body. -/
theorem checkForUpdate_upstream_decision
    (openPrs : List PullRequestRecord) (current : String) (latest : UpstreamRelease)
    (hnone : findOpenLspUpdatePr openPrs = none) :
    ∃ c, checkForUpdate openPrs none current latest = some c ∧
      (c.needed = false ↔ latest.version = current) ∧
      (latest.version = current → c = ⟨false, current, ""⟩) ∧
      (latest.version ≠ current → c = ⟨true, latest.version, latest.body⟩) := by
  by_cases h : latest.version = current
  · refine ⟨⟨false, current, ""⟩, ?_, ?_, ?_, ?_⟩ <;> simp [checkForUpdate, hnone, h]
  · refine ⟨⟨true, latest.version, latest.body⟩, ?_, ?_, ?_, ?_⟩ <;>
      simp [checkForUpdate, hnone, h]

/-- Witness for C8: with no open PR, current 1.2.0 and upstream 1.3.0 the
check reports an update carrying the upstream version and body. -/
theorem checkForUpdate_upstream_decision_witness :
    ∃ c, checkForUpdate [] none "1.2.0" ⟨"1.3.0", "notes"⟩ = some c ∧
      (c.needed = false ↔ ("1.3.0" : String) = "1.2.0") ∧
      (("1.3.0" : String) = "1.2.0" → c = ⟨false, "1.2.0", ""⟩) ∧
      (("1.3.0" : String) ≠ "1.2.0" → c = ⟨true, "1.3.0", "notes"⟩) :=
  checkForUpdate_upstream_decision [] "1.2.0" ⟨"1.3.0", "notes"⟩ (by decide)

/-- C10: with no open update PR, a manual override version makes the check
report `needed = true` with exactly that version and the changelog
"Manual update to v" followed by the version, for every current declared
version and every upstream state — in particular also when the override
equals the current version, which is never compared in this path. -/
theorem checkForUpdate_manual_override
    (openPrs : List PullRequestRecord) (v current : String) (latest : UpstreamRelease)
    (hnone : findOpenLspUpdatePr openPrs = none) :
    checkForUpdate openPrs (some v) current latest =
      some ⟨true, v, "Manual update to v" ++ v⟩ := by
  simp [checkForUpdate, hnone]

/-- Witness for C10: the override equals the current declared version and
the check still reports an update. -/
theorem checkForUpdate_manual_override_witness :
    checkForUpdate [] (some "1.2.0") "1.2.0" ⟨"1.2.0", ""⟩ =
      some ⟨true, "1.2.0", "Manual update to v" ++ "1.2.0"⟩ :=
  checkForUpdate_manual_override [] "1.2.0" "1.2.0" ⟨"1.2.0", ""⟩ (by decide)

/-- Counterexample to C2: starting from a platform state that already holds
a live prerelease (id 1) tagged 1.3.0, `createPrerelease` for 1.3.0 leaves
two prerelease entries with that tag and returns a fresh id 2, not the
existing record's id and url. -/
theorem createPrerelease_duplicates_existing_tag :
    ((createPrerelease
        ⟨[⟨1, "1.3.0", "v1.3.0", prereleaseBody "1.3.0", false, true, releaseUrl 1⟩], 2⟩
        [] "1.3.0" true true).state.releases.filter
        (fun r => r.prerelease && r.tag_name == "1.3.0")).length = 2 ∧
    (createPrerelease
        ⟨[⟨1, "1.3.0", "v1.3.0", prereleaseBody "1.3.0", false, true, releaseUrl 1⟩], 2⟩
        [] "1.3.0" true true).result = Except.ok (2, releaseUrl 2) := by
  constructor <;> rfl

/-- C2 amended: `createPrerelease` never consults the existing release
list; on a run whose uploads succeed it always appends one brand-new
prerelease entry with the fresh server-assigned id and returns that id and
url — also when a prerelease for the same tag already exists, so a rerun
for the same version yields a second entry rather than reusing the first. -/
theorem createPrerelease_always_creates
    (st : GithubState) (fs : List String) (version : String) :
    (createPrerelease st fs version true true).state.releases =
      st.releases ++
        [⟨st.nextId, version, "v" ++ version, prereleaseBody version, false, true,
          releaseUrl st.nextId⟩] ∧
    (createPrerelease st fs version true true).result =
      Except.ok (st.nextId, releaseUrl st.nextId) ∧
    (createPrerelease st fs version true true).state.nextId = st.nextId + 1 :=
  ⟨rfl, rfl, rfl⟩

/-- Counterexample to C9: when the first asset upload fails, the run exits
with the upload error while the tarball and the checksum file are still
present in the workspace — the cleanup line is never reached. -/
theorem createPrerelease_upload_failure_leaks_files :
    (createPrerelease ⟨[], 1⟩ [] "1.3.0" false true).localFiles =
      [tarballName "1.3.0", sha256Name "1.3.0"] ∧
    (createPrerelease ⟨[], 1⟩ [] "1.3.0" false true).result =
      Except.error "uploadReleaseAsset failed" :=
  ⟨rfl, rfl⟩

/-- C9 amended: `createPrerelease` removes the local tarball and checksum
files only when both uploads succeed; when either upload fails the error
propagates out before the cleanup line, leaving both files behind. -/
theorem createPrerelease_cleanup_only_on_success
    (st : GithubState) (fs : List String) (version : String) (u1 u2 : Bool) :
    ((u1 && u2) = true →
      (createPrerelease st fs version u1 u2).localFiles =
        (fs ++ [tarballName version, sha256Name version]).filter
          (fun f => !(f == tarballName version || f == sha256Name version))) ∧
    ((u1 && u2) = false →
      tarballName version ∈ (createPrerelease st fs version u1 u2).localFiles ∧
      sha256Name version ∈ (createPrerelease st fs version u1 u2).localFiles ∧
      ∃ e, (createPrerelease st fs version u1 u2).result = Except.error e) := by
  cases u1 <;> cases u2 <;> constructor <;> intro h <;>
    simp_all [createPrerelease, createRelease]

/-- Witness for the C9 amendment at a concrete failing upload. -/
theorem createPrerelease_cleanup_only_on_success_witness :
    tarballName "1.0.0" ∈ (createPrerelease ⟨[], 1⟩ [] "1.0.0" false true).localFiles ∧
    sha256Name "1.0.0" ∈ (createPrerelease ⟨[], 1⟩ [] "1.0.0" false true).localFiles ∧
    ∃ e, (createPrerelease ⟨[], 1⟩ [] "1.0.0" false true).result = Except.error e :=
  (createPrerelease_cleanup_only_on_success ⟨[], 1⟩ [] "1.0.0" false true).2 rfl

/-- Counterexample to C3: the Commit Verifier gate passes (automation
author, template message) and no prerelease or draft exists for the
declared version, yet the publish-release run (the variant that contains
the Commit Verifier) skips with a fixed reason and mutates no release —
it does not fall back to a from-scratch build. -/
theorem publishRelease_skips_without_prerelease :
    publishReleaseRun
        ⟨some "github-actions[bot]", "chore: update language server to v1.3.0"⟩
        ⟨[], 1⟩ "1.3.0" "notes" =
      (RunOutcome.skipped "No prerelease found for this version", ⟨[], 1⟩) := by
  rfl

/-- C3 amended: in the publish-release variant with the Commit Verifier, a
passed gate with no matching prerelease or draft ends in `skipped = true`
with reason "No prerelease found for this version" and an unchanged
release list; the from-scratch fallback lives only in the promote variant
without the Commit Verifier, whose run on a missing prerelease invokes the
Artifact Builder and appends a brand-new stable entry (draft = false,
prerelease = false) with `promoted = false`. -/
theorem publishRelease_skip_vs_scratch
    (commit : CommitInfo) (st : GithubState) (version body : String)
    (fs : List String)
    (hvalid : (verifyLspUpdateCommit commit).isValid = true)
    (hnone : findPrerelease st.releases version = none) :
    publishReleaseRun commit st version body =
      (RunOutcome.skipped "No prerelease found for this version", st) ∧
    (promoteOrScratchRun st fs version body true true).builtLsp = true ∧
    (promoteOrScratchRun st fs version body true true).promoted = false ∧
    (promoteOrScratchRun st fs version body true true).state.releases =
      st.releases ++
        [⟨st.nextId, version, "v" ++ version, body, false, false, releaseUrl st.nextId⟩] := by
  refine ⟨?_, ?_, ?_, ?_⟩ <;>
    simp [publishReleaseRun, promoteOrScratchRun, createReleaseFromScratch,
      createRelease, exceptFailed, hvalid, hnone]

/-- Witness for the C3 amendment: gate passed, empty release list. -/
theorem publishRelease_skip_vs_scratch_witness :
    publishReleaseRun
        ⟨some "github-actions[bot]", "chore: update language server to v1.3.0"⟩
        ⟨[], 1⟩ "1.3.0" "notes" =
      (RunOutcome.skipped "No prerelease found for this version", ⟨[], 1⟩) ∧
    (promoteOrScratchRun ⟨[], 1⟩ [] "1.3.0" "notes" true true).builtLsp = true ∧
    (promoteOrScratchRun ⟨[], 1⟩ [] "1.3.0" "notes" true true).promoted = false ∧
    (promoteOrScratchRun ⟨[], 1⟩ [] "1.3.0" "notes" true true).state.releases =
      ([] : List ReleaseRecord) ++
        [⟨1, "1.3.0", "v" ++ "1.3.0", "notes", false, false, releaseUrl 1⟩] :=
  publishRelease_skip_vs_scratch
    ⟨some "github-actions[bot]", "chore: update language server to v1.3.0"⟩
    ⟨[], 1⟩ "1.3.0" "notes" [] (by decide) (by decide)

/-- Counterexample to C4: for a commit with the automation author but the
message "fix: typo", the verifier's skip reason is the fixed string
"Skipping: Commit message doesn't match LSP update pattern", which does
not contain the actual message; the run skips with that reason and mutates
no release even though a matching prerelease exists. -/
theorem verify_reason_omits_actual_message :
    verifyLspUpdateCommit ⟨some "github-actions[bot]", "fix: typo"⟩ =
      ⟨false, "Skipping: Commit message doesn't match LSP update pattern"⟩ ∧
    containsSub "Skipping: Commit message doesn't match LSP update pattern" "fix: typo" = false ∧
    publishReleaseRun ⟨some "github-actions[bot]", "fix: typo"⟩
        ⟨[⟨1, "1.3.0", "v1.3.0", "b", false, true, releaseUrl 1⟩], 2⟩ "1.3.0" "notes" =
      (RunOutcome.skipped "Skipping: Commit message doesn't match LSP update pattern",
        ⟨[⟨1, "1.3.0", "v1.3.0", "b", false, true, releaseUrl 1⟩], 2⟩) := by
  refine ⟨rfl, by decide, rfl⟩

/-- C4 amended: any commit whose author differs from the automation
identity, or whose message does not start with the fixed template, makes
`verifyLspUpdateCommit` return `isValid = false` and the run skip with the
verifier's reason, mutating no release; the author-mismatch reason
contains the actual author, while the message-mismatch reason is the fixed
string "Skipping: Commit message doesn't match LSP update pattern" and
does not carry the actual message. -/
theorem verify_gate_mismatch_reasons
    (c : CommitInfo) (st : GithubState) (version body : String) :
    (c.authorName ≠ some "github-actions[bot]" →
      (verifyLspUpdateCommit c).isValid = false ∧
      containsSub (verifyLspUpdateCommit c).message (authorDisplay c.authorName) = true ∧
      publishReleaseRun c st version body =
        (RunOutcome.skipped (verifyLspUpdateCommit c).message, st)) ∧
    (c.authorName = some "github-actions[bot]" →
      lspCommitPrefixStr.data.isPrefixOf c.message.data = false →
      (verifyLspUpdateCommit c).isValid = false ∧
      (verifyLspUpdateCommit c).message =
        "Skipping: Commit message doesn't match LSP update pattern" ∧
      publishReleaseRun c st version body =
        (RunOutcome.skipped (verifyLspUpdateCommit c).message, st)) := by
  constructor
  · intro h
    have hv : verifyLspUpdateCommit c =
        ⟨false, "Skipping: Commit author is '" ++ authorDisplay c.authorName ++
          "', expected 'github-actions[bot]'"⟩ := by
      simp [verifyLspUpdateCommit, automationAuthor, h]
    refine ⟨by rw [hv], ?_, ?_⟩
    · rw [hv]
      exact containsSub_append _ _ _
    · simp [publishReleaseRun, hv]
  · intro h hpre
    have hv : verifyLspUpdateCommit c =
        ⟨false, "Skipping: Commit message doesn't match LSP update pattern"⟩ := by
      simp [verifyLspUpdateCommit, automationAuthor, h, hpre]
    exact ⟨by rw [hv], by rw [hv], by simp [publishReleaseRun, hv]⟩

/-- Witness for the C4 amendment: a human author makes the gate skip with
a reason that carries the actual author name. -/
theorem verify_gate_mismatch_reasons_witness :
    (verifyLspUpdateCommit ⟨some "Alice", "hello"⟩).isValid = false ∧
    containsSub (verifyLspUpdateCommit ⟨some "Alice", "hello"⟩).message
      (authorDisplay (some "Alice")) = true ∧
    publishReleaseRun ⟨some "Alice", "hello"⟩ ⟨[], 1⟩ "1.0.0" "b" =
      (RunOutcome.skipped (verifyLspUpdateCommit ⟨some "Alice", "hello"⟩).message, ⟨[], 1⟩) :=
  (verify_gate_mismatch_reasons ⟨some "Alice", "hello"⟩ ⟨[], 1⟩ "1.0.0" "b").1 (by decide)

/-- C5: whenever the rebase-keeper run finds an open update PR, the branch
has diverged (merge base differs from the main head) and the replay fails,
the run aborts the in-progress rebase, issues no push, reports the
structured conflict warning through the `error` output, and ends with
`rebased = false` without failing the run. -/
theorem rebaseKeeper_conflict_atomic
    (openPrs : List PullRequestRecord) (pr : PullRequestRecord)
    (mainHead mergeBaseResult : String) (pushOk : Bool)
    (hpr : findOpenLspUpdatePr openPrs = some pr)
    (hdiv : mergeBaseResult ≠ mainHead) :
    (rebaseKeeperRun openPrs mainHead mergeBaseResult false pushOk).1 =
      { found := true, rebased := false, error := some conflictMsg, failed := false } ∧
    GitOp.push ∉ (rebaseKeeperRun openPrs mainHead mergeBaseResult false pushOk).2 ∧
    GitOp.rebaseAbort ∈ (rebaseKeeperRun openPrs mainHead mergeBaseResult false pushOk).2 := by
  refine ⟨?_, ?_, ?_⟩ <;> simp [rebaseKeeperRun, hpr, hdiv]

/-- Witness for C5 at a concrete diverged PR with a failing replay. -/
theorem rebaseKeeper_conflict_atomic_witness :
    (rebaseKeeperRun [⟨7, "update-lsp-1.3.0", "aaa"⟩] "mmm" "bbb" false true).1 =
      { found := true, rebased := false, error := some conflictMsg, failed := false } ∧
    GitOp.push ∉ (rebaseKeeperRun [⟨7, "update-lsp-1.3.0", "aaa"⟩] "mmm" "bbb" false true).2 ∧
    GitOp.rebaseAbort ∈ (rebaseKeeperRun [⟨7, "update-lsp-1.3.0", "aaa"⟩] "mmm" "bbb" false true).2 :=
  rebaseKeeper_conflict_atomic [⟨7, "update-lsp-1.3.0", "aaa"⟩] ⟨7, "update-lsp-1.3.0", "aaa"⟩
    "mmm" "bbb" true (by decide) (by decide)

/-- C7: whenever the rebase-keeper run finds an open update PR and the
merge base of its head and the main head equals the main head, the run
stops after the two read commands: the trace holds exactly the git config,
fetch, rev-parse and merge-base calls, so no rebase, no abort and no push
occur, and the run outputs `rebased = false`. -/
theorem rebaseKeeper_noop_when_up_to_date
    (openPrs : List PullRequestRecord) (pr : PullRequestRecord)
    (mainHead mergeBaseResult : String) (rebaseOk pushOk : Bool)
    (hpr : findOpenLspUpdatePr openPrs = some pr)
    (heq : mergeBaseResult = mainHead) :
    (rebaseKeeperRun openPrs mainHead mergeBaseResult rebaseOk pushOk).1 =
      { found := true, rebased := false, error := none, failed := false } ∧
    (rebaseKeeperRun openPrs mainHead mergeBaseResult rebaseOk pushOk).2 =
      [GitOp.config, GitOp.config, GitOp.fetch, GitOp.revParse, GitOp.mergeBase] ∧
    GitOp.rebase ∉ (rebaseKeeperRun openPrs mainHead mergeBaseResult rebaseOk pushOk).2 ∧
    GitOp.push ∉ (rebaseKeeperRun openPrs mainHead mergeBaseResult rebaseOk pushOk).2 ∧
    GitOp.rebaseAbort ∉ (rebaseKeeperRun openPrs mainHead mergeBaseResult rebaseOk pushOk).2 := by
  refine ⟨?_, ?_, ?_, ?_, ?_⟩ <;> simp [rebaseKeeperRun, hpr, heq]

/-- Witness for C7: the merge base equals the main head, so the run is a
pure no-op after the reads. -/
theorem rebaseKeeper_noop_when_up_to_date_witness :
    (rebaseKeeperRun [⟨7, "update-lsp-1.3.0", "aaa"⟩] "mmm" "mmm" true true).1 =
      { found := true, rebased := false, error := none, failed := false } ∧
    (rebaseKeeperRun [⟨7, "update-lsp-1.3.0", "aaa"⟩] "mmm" "mmm" true true).2 =
      [GitOp.config, GitOp.config, GitOp.fetch, GitOp.revParse, GitOp.mergeBase] ∧
    GitOp.rebase ∉ (rebaseKeeperRun [⟨7, "update-lsp-1.3.0", "aaa"⟩] "mmm" "mmm" true true).2 ∧
    GitOp.push ∉ (rebaseKeeperRun [⟨7, "update-lsp-1.3.0", "aaa"⟩] "mmm" "mmm" true true).2 ∧
    GitOp.rebaseAbort ∉ (rebaseKeeperRun [⟨7, "update-lsp-1.3.0", "aaa"⟩] "mmm" "mmm" true true).2 :=
  rebaseKeeper_noop_when_up_to_date [⟨7, "update-lsp-1.3.0", "aaa"⟩]
    ⟨7, "update-lsp-1.3.0", "aaa"⟩ "mmm" "mmm" true true (by decide) rfl

/-- C6: the Change Committer creates exactly one commit when the staged
diff is non-empty and zero when it is empty; the empty case reports
`committed = false` without error, and the non-empty commit's title line
is exactly "chore: update language server to v" followed by the version.
The first two conjuncts cover the build-lsp run (empty means an empty
`git status --porcelain` capture); the last two cover `commitChanges` in
the update-lsp action (empty means exit code 0 of
`git diff --cached --quiet`). -/
theorem changeCommitter_commit_discipline
    (version lspPath statusOutput : String) (diffExitCode : Nat) :
    (statusOutput = "" →
      (buildLspRun version lspPath statusOutput).1.committed = false ∧
      (buildLspRun version lspPath statusOutput).1.failed = false ∧
      commitCount (buildLspRun version lspPath statusOutput).2 = 0) ∧
    (statusOutput ≠ "" →
      (buildLspRun version lspPath statusOutput).1.committed = true ∧
      commitCount (buildLspRun version lspPath statusOutput).2 = 1 ∧
      CommitOp.commit (commitTitle version) ∈ (buildLspRun version lspPath statusOutput).2 ∧
      commitTitle version = "chore: update language server to v" ++ version) ∧
    ((commitChanges version diffExitCode).1 = true ↔ diffExitCode ≠ 0) ∧
    commitCount (commitChanges version diffExitCode).2 =
      (if diffExitCode = 0 then 0 else 1) := by
  refine ⟨?_, ?_, ?_, ?_⟩
  · intro h
    refine ⟨?_, ?_, ?_⟩ <;> simp [buildLspRun, commitCount, h]
  · intro h
    refine ⟨?_, ?_, ?_, rfl⟩ <;> simp [buildLspRun, commitCount, h]
  · by_cases h : diffExitCode = 0 <;> simp [commitChanges, h]
  · by_cases h : diffExitCode = 0 <;> simp [commitChanges, commitCount, h]

/-- Witness for C6: a non-empty status capture yields one commit with the
template title; diff exit code 0 yields no commit. -/
theorem changeCommitter_commit_discipline_witness :
    ((buildLspRun "1.3.0" "lsp" "M lsp/index.js").1.committed = true ∧
      commitCount (buildLspRun "1.3.0" "lsp" "M lsp/index.js").2 = 1 ∧
      CommitOp.commit (commitTitle "1.3.0") ∈ (buildLspRun "1.3.0" "lsp" "M lsp/index.js").2 ∧
      commitTitle "1.3.0" = "chore: update language server to v" ++ "1.3.0") ∧
    ((commitChanges "1.3.0" 0).1 = true ↔ (0 : Nat) ≠ 0) ∧
    commitCount (commitChanges "1.3.0" 0).2 = (if (0 : Nat) = 0 then 0 else 1) :=
  ⟨(changeCommitter_commit_discipline "1.3.0" "lsp" "M lsp/index.js" 0).2.1 (by decide),
    (changeCommitter_commit_discipline "1.3.0" "lsp" "M lsp/index.js" 0).2.2.1,
    (changeCommitter_commit_discipline "1.3.0" "lsp" "M lsp/index.js" 0).2.2.2⟩
